import Mathlib

/-!
# Verification of `png_to_bin.py` (binconvert)

A shallow embedding of the converter pair `convert_png_to_bin` /
`read_bin_to_png` from `src/png_to_bin.py`, and proofs of the spec's
claims about the binary container format.

Bytes are modelled as `Nat` (values `< 256` where it matters), files as
`List Nat`.  Python's `try/except` boundary is modelled with
`Except String`: every operation of the body that can raise returns an
`Except`, and the public function catches every `error` and turns it into
a `(success := false, message)` result, mirroring lines 26-72 and 88-124
of the source.

The file-system and image-library collaborators (PIL) are not part of
the repository; their boundary behaviour is modelled from the spec's
collaborator contracts (section 6) where noted.
-/

/-- A decoded raster image: width, height and the row-major RGBA pixel
bytes, as PIL hands them to the converter (`img.size`, `img.tobytes()`). -/
structure Image where
  width : Nat
  height : Nat
  data : List Nat
deriving Repr, DecidableEq

/-- The magic constant `b'PNG\x00'` (`50 4E 47 00`) written at line 58. -/
def MAGIC : List Nat := [0x50, 0x4E, 0x47, 0x00]

/-- The little-endian byte serialisation used by `struct.pack('<I', n)`
for an in-range argument. -/
def pack_le32 (n : Nat) : List Nat :=
  [n % 256, n / 256 % 256, n / 65536 % 256, n / 16777216 % 256]

/-- `struct.pack('<I', n)`: raises `struct.error` unless `0 ≤ n < 2^32`. -/
def struct_pack_le32 (n : Nat) : Except String (List Nat) :=
  if n < 4294967296 then .ok (pack_le32 n)
  else .error "argument out of range for format code I"

/-- The value a byte list denotes when read as a little-endian unsigned
integer (least significant byte first). -/
def le_value : List Nat → Nat
  | [] => 0
  | b :: bs => b + 256 * le_value bs

/-- `struct.unpack('<I', bs)[0]`: raises `struct.error` unless the buffer
holds exactly 4 bytes. -/
def struct_unpack_le32 : List Nat → Except String Nat
  | [b0, b1, b2, b3] => .ok (b0 + 256 * b1 + 65536 * b2 + 16777216 * b3)
  | _ => .error "unpack requires a buffer of 4 bytes"

/-- `struct.unpack('B', bs)[0]`: raises `struct.error` unless the buffer
holds exactly 1 byte. -/
def struct_unpack_B : List Nat → Except String Nat
  | [b] => .ok b
  | _ => .error "unpack requires a buffer of 1 bytes"

/-- Modelled from the spec: the image-codec collaborator's
`Image.frombytes('RGBA', (width, height), buffer)` (source line 118).
Spec section 4.2 step 7: "If `len(buffer) != width*height*4`, image
construction fails — surfaced as a decode failure." -/
def image_frombytes (w h : Nat) (buf : List Nat) : Except String Image :=
  if buf.length = w * h * 4 then .ok ⟨w, h, buf⟩
  else .error "not enough image data"

/-- Modelled from the spec: the image-codec collaborator's
`img.save(png_path, 'PNG')` (source line 119).  The spec's round-trip
property (section 8.1) has encoding of every reconstructed image succeed;
no failure mode of `save` is specified, so it is modelled as total. -/
def image_save (_img : Image) : Except String Unit := .ok ()

/-- Python `str.lower()` restricted to ASCII, as used on the path suffix
at line 32 (`png_path.suffix.lower()`). -/
def str_lower (s : String) : String := String.mk (s.data.map Char.toLower)

/-- The encoder's view of its source: the textual path (used only in the
messages), whether `png_path.exists()` holds, the `pathlib` suffix of the
path, and the outcome of `Image.open` followed by `convert('RGBA')` —
`none` models the library raising, which line 71 catches. -/
structure EncoderInput where
  path : String
  path_exists : Bool
  path_suffix : String
  open_result : Option Image
deriving Repr, DecidableEq

/-- The observable outcome of `convert_png_to_bin`: the returned
`(success, message)` pair and the bytes written to `bin_path` when the
write completed (`none` on failure; a partially written destination is
not modelled, matching spec section 4.1's "may simply not create the
destination on failure"). -/
structure EncodeOutcome where
  success : Bool
  message : String
  written : Option (List Nat)
deriving Repr, DecidableEq

/-- The body of `convert_png_to_bin` (lines 27-69): everything inside the
`try`.  An `Except.error` is a Python exception escaping the body. -/
def convert_body (inp : EncoderInput) (include_metadata : Bool) :
    Except String EncodeOutcome :=
  if inp.path_exists = false then
    .ok ⟨false, "PNG file not found: " ++ inp.path, none⟩
  else if str_lower inp.path_suffix ≠ ".png" then
    .ok ⟨false, "File is not a PNG: " ++ inp.path, none⟩
  else
    match inp.open_result with
    | none => .error "cannot identify image file"
    | some img =>
      if include_metadata = true then
        match struct_pack_le32 img.width with
        | .error e => .error e
        | .ok wB =>
          match struct_pack_le32 img.height with
          | .error e => .error e
          | .ok hB =>
            match struct_pack_le32 img.data.length with
            | .error e => .error e
            | .ok sB =>
              .ok ⟨true, "Successfully converted: " ++ inp.path,
                some (MAGIC ++ wB ++ hB ++ [4] ++ sB ++ img.data)⟩
      else
        .ok ⟨true, "Successfully converted: " ++ inp.path, some img.data⟩

/-- `convert_png_to_bin` (lines 13-72): the body wrapped in the
`try/except` that converts every exception into
`(False, "Error converting PNG: ...")`. -/
def convert_png_to_bin (inp : EncoderInput) (include_metadata : Bool) :
    EncodeOutcome :=
  match convert_body inp include_metadata with
  | .ok o => o
  | .error e => ⟨false, "Error converting PNG: " ++ e, none⟩

/-- The decoder's view of its source: the textual path, whether
`bin_path.exists()` holds, the `pathlib` suffix of the path (never
consulted by the source), and the file's byte content. -/
structure DecoderInput where
  path : String
  path_exists : Bool
  path_suffix : String
  content : List Nat
deriving Repr, DecidableEq

/-- The observable outcome of `read_bin_to_png`: the returned
`(success, message)` pair and the image written to `png_path` on
success. -/
structure DecodeOutcome where
  success : Bool
  message : String
  image : Option Image
deriving Repr, DecidableEq

/-- The body of `read_bin_to_png` (lines 89-121): everything inside the
`try`.  `f.read(n)` on a file whose remaining bytes are `rest` returns
`rest.take n`, so the sequential reads become `take`/`drop` at fixed
offsets. -/
def read_bin_body (inp : DecoderInput) (has_metadata : Bool) :
    Except String DecodeOutcome :=
  if inp.path_exists = false then
    .ok ⟨false, "BIN file not found: " ++ inp.path, none⟩
  else if has_metadata = true then
    if inp.content.take 4 ≠ MAGIC then
      .ok ⟨false, "Invalid BIN file format (missing PNG magic number)", none⟩
    else
      match struct_unpack_le32 ((inp.content.drop 4).take 4) with
      | .error e => .error e
      | .ok width =>
        match struct_unpack_le32 ((inp.content.drop 8).take 4) with
        | .error e => .error e
        | .ok height =>
          match struct_unpack_B ((inp.content.drop 12).take 1) with
          | .error e => .error e
          | .ok _mode_bytes =>
            match struct_unpack_le32 ((inp.content.drop 13).take 4) with
            | .error e => .error e
            | .ok data_size =>
              match image_frombytes width height
                  ((inp.content.drop 17).take data_size) with
              | .error e => .error e
              | .ok img =>
                match image_save img with
                | .error e => .error e
                | .ok _ =>
                  .ok ⟨true, "Successfully converted: " ++ inp.path, some img⟩
  else
    .ok ⟨false, "Cannot read raw BIN without metadata (width/height unknown)",
      none⟩

/-- `read_bin_to_png` (lines 75-124): the body wrapped in the
`try/except` that converts every exception into
`(False, "Error converting BIN to PNG: ...")`. -/
def read_bin_to_png (inp : DecoderInput) (has_metadata : Bool) :
    DecodeOutcome :=
  match read_bin_body inp has_metadata with
  | .ok o => o
  | .error e => ⟨false, "Error converting BIN to PNG: " ++ e, none⟩

/-! ## Basic lemmas -/

/-- Little-endian packing then unpacking is the identity below `2^32`. -/
theorem unpack_pack (n : Nat) (h : n < 4294967296) :
    n % 256 + 256 * (n / 256 % 256) + 65536 * (n / 65536 % 256)
      + 16777216 * (n / 16777216 % 256) = n := by
  omega

/-- The value denoted by the `struct.pack('<I', ·)` bytes of an in-range
integer is that integer. -/
theorem le_value_pack_le32 (n : Nat) (h : n < 4294967296) :
    le_value (pack_le32 n) = n := by
  simp [le_value, pack_le32]
  omega

/-- Decoding a container that carries a full 17-byte header: the result is
determined by whether the pixel bytes actually read (`tail.take ds`, since
`f.read(ds)` returns at most the remaining bytes) have the length the
image constructor demands. -/
theorem read_bin_header (p sfx : String) (w h m ds : Nat) (tail : List Nat)
    (hw : w < 4294967296) (hh : h < 4294967296) (hds : ds < 4294967296) :
    read_bin_to_png
      ⟨p, true, sfx, MAGIC ++ pack_le32 w ++ pack_le32 h ++ [m] ++ pack_le32 ds ++ tail⟩ true =
      if (tail.take ds).length = w * h * 4 then
        DecodeOutcome.mk true ("Successfully converted: " ++ p) (some ⟨w, h, tail.take ds⟩)
      else ⟨false, "Error converting BIN to PNG: not enough image data", none⟩ := by
  have hw' := unpack_pack w hw
  have hh' := unpack_pack h hh
  have hds' := unpack_pack ds hds
  simp only [read_bin_to_png, read_bin_body, MAGIC, pack_le32,
    List.cons_append, List.nil_append, List.take_succ_cons, List.take_zero,
    List.drop_succ_cons, List.drop_zero, struct_unpack_le32, struct_unpack_B,
    image_frombytes, image_save]
  simp only [hw', hh', hds']
  by_cases hlen : ds ⊓ tail.length = w * h * 4 <;>
    simp [hlen, List.length_take]

/-- Encoding an in-range image through an existing `.png` path writes the
header followed by the pixel bytes. -/
theorem convert_with_metadata (p sfx : String) (img : Image)
    (hsfx : str_lower sfx = ".png")
    (hw : img.width < 4294967296) (hh : img.height < 4294967296)
    (hs : img.data.length < 4294967296) :
    convert_png_to_bin ⟨p, true, sfx, some img⟩ true =
      ⟨true, "Successfully converted: " ++ p,
        some (MAGIC ++ pack_le32 img.width ++ pack_le32 img.height ++ [4]
          ++ pack_le32 img.data.length ++ img.data)⟩ := by
  simp [convert_png_to_bin, convert_body, hsfx, struct_pack_le32, hw, hh, hs]

/-- C1: for every image with width ≥ 1, height ≥ 1 and arbitrary RGBA
pixel content, encoding with `convert_png_to_bin` (include_metadata=True)
and decoding the produced container with `read_bin_to_png`
(has_metadata=True) succeeds and reproduces the identical width, height
and pixel buffer. -/
theorem c1_round_trip (p p2 sfx sfx2 : String) (img : Image)
    (hsfx : str_lower sfx = ".png")
    (_hw : 1 ≤ img.width) (_hh : 1 ≤ img.height)
    (hw32 : img.width < 4294967296) (hh32 : img.height < 4294967296)
    (hlen : img.data.length = img.width * img.height * 4)
    (hs32 : img.width * img.height * 4 < 4294967296) :
    ∃ container : List Nat,
      convert_png_to_bin ⟨p, true, sfx, some img⟩ true =
        ⟨true, "Successfully converted: " ++ p, some container⟩ ∧
      read_bin_to_png ⟨p2, true, sfx2, container⟩ true =
        ⟨true, "Successfully converted: " ++ p2, some img⟩ := by
  refine ⟨_, convert_with_metadata p sfx img hsfx hw32 hh32 (by omega), ?_⟩
  rw [hlen]
  rw [read_bin_header p2 sfx2 img.width img.height 4
    (img.width * img.height * 4) img.data hw32 hh32 hs32]
  rw [if_pos (by simp [List.length_take, hlen])]
  rw [← hlen, List.take_length]

/-- C1 witness: the round trip at a concrete 1×1 image. -/
theorem c1_round_trip_witness :
    ∃ container : List Nat,
      convert_png_to_bin ⟨"a.png", true, ".png",
          some ⟨1, 1, [10, 20, 30, 40]⟩⟩ true =
        ⟨true, "Successfully converted: " ++ "a.png", some container⟩ ∧
      read_bin_to_png ⟨"a.bin", true, ".bin", container⟩ true =
        ⟨true, "Successfully converted: " ++ "a.bin",
          some ⟨1, 1, [10, 20, 30, 40]⟩⟩ :=
  c1_round_trip "a.png" "a.bin" ".png" ".bin" ⟨1, 1, [10, 20, 30, 40]⟩
    (by decide) (by decide) (by decide) (by decide) (by decide) (by decide)
    (by decide)

/-- C2: the with-metadata container starts with the magic `50 4E 47 00`,
then the width and height as 4-byte little-endian unsigned integers, the
single byte 4, the data length `w*h*4` as a 4-byte little-endian unsigned
integer, then the pixel bytes; its total length is `17 + w*h*4`. -/
theorem c2_container_layout (p sfx : String) (img : Image)
    (hsfx : str_lower sfx = ".png")
    (hw32 : img.width < 4294967296) (hh32 : img.height < 4294967296)
    (hlen : img.data.length = img.width * img.height * 4)
    (hs32 : img.width * img.height * 4 < 4294967296)
    (hbytes : ∀ b ∈ img.data, b < 256) :
    ∃ out : List Nat,
      convert_png_to_bin ⟨p, true, sfx, some img⟩ true =
        ⟨true, "Successfully converted: " ++ p, some out⟩ ∧
      out.take 4 = [0x50, 0x4E, 0x47, 0x00] ∧
      ((out.drop 4).take 4).length = 4 ∧
      le_value ((out.drop 4).take 4) = img.width ∧
      ((out.drop 8).take 4).length = 4 ∧
      le_value ((out.drop 8).take 4) = img.height ∧
      out[12]? = some 4 ∧
      ((out.drop 13).take 4).length = 4 ∧
      le_value ((out.drop 13).take 4) = img.width * img.height * 4 ∧
      out.drop 17 = img.data ∧
      out.length = 17 + img.width * img.height * 4 ∧
      (∀ b ∈ out, b < 256) := by
  refine ⟨_, convert_with_metadata p sfx img hsfx hw32 hh32 (by omega), ?_⟩
  rw [hlen]
  simp only [MAGIC, pack_le32, List.cons_append, List.nil_append]
  refine ⟨by simp, by simp, ?_, by simp, ?_, by simp, by simp, ?_, by simp, ?_, ?_⟩
  · simp [le_value]
    omega
  · simp [le_value]
    omega
  · simp [le_value]
    omega
  · simp [List.length_append]
    omega
  · intro b hb
    simp only [List.mem_cons, List.mem_append] at hb
    rcases hb with h | h | h | h | h | h | h | h | h | h | h | h | h | h | h | h | h | h
    all_goals first
      | omega
      | exact hbytes b h

/-- C2 witness: the layout at a concrete 1×1 image. -/
theorem c2_container_layout_witness :
    ∃ out : List Nat,
      convert_png_to_bin ⟨"a.png", true, ".png",
          some ⟨1, 1, [10, 20, 30, 40]⟩⟩ true =
        ⟨true, "Successfully converted: " ++ "a.png", some out⟩ ∧
      out.take 4 = [0x50, 0x4E, 0x47, 0x00] ∧
      ((out.drop 4).take 4).length = 4 ∧
      le_value ((out.drop 4).take 4) = 1 ∧
      ((out.drop 8).take 4).length = 4 ∧
      le_value ((out.drop 8).take 4) = 1 ∧
      out[12]? = some 4 ∧
      ((out.drop 13).take 4).length = 4 ∧
      le_value ((out.drop 13).take 4) = 1 * 1 * 4 ∧
      out.drop 17 = [10, 20, 30, 40] ∧
      out.length = 17 + 1 * 1 * 4 ∧
      (∀ b ∈ out, b < 256) :=
  c2_container_layout "a.png" ".png" ⟨1, 1, [10, 20, 30, 40]⟩
    (by decide) (by decide) (by decide) (by decide) (by decide) (by decide)

/-- C3: with `has_metadata=False` the decoder fails immediately on every
existing source file, with the message that width/height cannot be
recovered — so `decode(encode(image, includeHeader=false), hasHeader=false)`
always fails regardless of content. -/
theorem c3_headerless_decode_unsupported (p sfx : String) (content : List Nat) :
    read_bin_to_png ⟨p, true, sfx, content⟩ false =
      ⟨false, "Cannot read raw BIN without metadata (width/height unknown)",
        none⟩ := by
  rfl

/-- C4: any content whose first 4 bytes differ from the magic constant is
rejected with the "missing PNG magic number" format error, whatever the
remaining bytes hold. -/
theorem c4_magic_mismatch (p sfx : String) (content : List Nat)
    (hmagic : content.take 4 ≠ MAGIC) :
    read_bin_to_png ⟨p, true, sfx, content⟩ true =
      ⟨false, "Invalid BIN file format (missing PNG magic number)", none⟩ := by
  simp [read_bin_to_png, read_bin_body, hmagic]

/-- C4 witness: a concrete non-magic prefix is rejected. -/
theorem c4_magic_mismatch_witness :
    read_bin_to_png ⟨"f.bin", true, ".bin", [1, 2, 3, 4, 5]⟩ true =
      ⟨false, "Invalid BIN file format (missing PNG magic number)", none⟩ :=
  c4_magic_mismatch "f.bin" ".bin" [1, 2, 3, 4, 5] (by decide)

/-- C5 counterexample: a header claiming `dataSize = 100` with only 4
bytes remaining decodes SUCCESSFULLY (the truncated read still has length
`width*height*4 = 4`), contradicting the claim that an oversized
`dataSize` always yields failure. -/
theorem c5_oversized_data_size_counterexample :
    (100 : Nat) > ([10, 20, 30, 40] : List Nat).length ∧
    (read_bin_to_png ⟨"img.bin", true, ".bin",
      [80, 78, 71, 0, 1, 0, 0, 0, 1, 0, 0, 0, 4, 100, 0, 0, 0,
       10, 20, 30, 40]⟩ true).success = true := by
  decide

/-- C5 (amended): decoding a full-header container succeeds exactly when
the pixel buffer actually read — the remaining bytes truncated to
`dataSize` — has length `width*height*4`; in particular an oversized
`dataSize` fails only when the truncated buffer misses that length. -/
theorem c5_buffer_length_check (p sfx : String) (w h m ds : Nat) (tail : List Nat)
    (hw : w < 4294967296) (hh : h < 4294967296) (hds : ds < 4294967296) :
    ((read_bin_to_png ⟨p, true, sfx,
        MAGIC ++ pack_le32 w ++ pack_le32 h ++ [m] ++ pack_le32 ds ++ tail⟩
          true).success = true
      ↔ (tail.take ds).length = w * h * 4) := by
  rw [read_bin_header p sfx w h m ds tail hw hh hds]
  split <;> simp_all

/-- C5 witness: the amended characterisation at the counterexample's
container. -/
theorem c5_buffer_length_check_witness :
    ((read_bin_to_png ⟨"img.bin", true, ".bin",
        MAGIC ++ pack_le32 1 ++ pack_le32 1 ++ [4] ++ pack_le32 100
          ++ [10, 20, 30, 40]⟩ true).success = true
      ↔ (([10, 20, 30, 40] : List Nat).take 100).length = 1 * 1 * 4) :=
  c5_buffer_length_check "img.bin" ".bin" 1 1 4 100 [10, 20, 30, 40]
    (by decide) (by decide) (by decide)

/-- C6: the decode outcome never depends on the bytes-per-pixel byte at
offset 12 — two containers identical except for that byte decode to the
same result, so a value different from 4 is never rejected. -/
theorem c6_mode_byte_ignored (p sfx : String) (e : Bool)
    (a0 a1 a2 a3 a4 a5 a6 a7 a8 a9 a10 a11 b b' : Nat) (rest : List Nat) :
    read_bin_to_png
      ⟨p, e, sfx, [a0,a1,a2,a3,a4,a5,a6,a7,a8,a9,a10,a11] ++ b :: rest⟩ true =
    read_bin_to_png
      ⟨p, e, sfx, [a0,a1,a2,a3,a4,a5,a6,a7,a8,a9,a10,a11] ++ b' :: rest⟩ true := by
  cases e
  · rfl
  · simp only [read_bin_to_png, read_bin_body, List.cons_append, List.nil_append,
      List.take_succ_cons, List.drop_succ_cons, List.take_zero, List.drop_zero,
      struct_unpack_B]

/-- C7: a missing source path, or an encoder source whose lower-cased
suffix is not `.png`, yields `(False, descriptive message)` without
raising, for both operations. -/
theorem c7_path_validation (p sfx : String) (o : Option Image) (im hm : Bool)
    (content : List Nat) :
    (convert_png_to_bin ⟨p, false, sfx, o⟩ im =
      ⟨false, "PNG file not found: " ++ p, none⟩) ∧
    (str_lower sfx ≠ ".png" →
      convert_png_to_bin ⟨p, true, sfx, o⟩ im =
        ⟨false, "File is not a PNG: " ++ p, none⟩) ∧
    (read_bin_to_png ⟨p, false, sfx, content⟩ hm =
      ⟨false, "BIN file not found: " ++ p, none⟩) := by
  refine ⟨rfl, ?_, rfl⟩
  intro hne
  simp [convert_png_to_bin, convert_body, hne]

/-- C7 witness: the three failures at a concrete `.jpg` path. -/
theorem c7_path_validation_witness :
    (convert_png_to_bin ⟨"photo.jpg", false, ".jpg", none⟩ true =
      ⟨false, "PNG file not found: photo.jpg", none⟩) ∧
    (convert_png_to_bin ⟨"photo.jpg", true, ".jpg", none⟩ true =
      ⟨false, "File is not a PNG: photo.jpg", none⟩) ∧
    (read_bin_to_png ⟨"photo.jpg", false, ".jpg", []⟩ true =
      ⟨false, "BIN file not found: photo.jpg", none⟩) := by
  have h := c7_path_validation "photo.jpg" ".jpg" none true true []
  exact ⟨h.1, h.2.1 (by decide), h.2.2⟩

/-- C8: both operations are total at their boundary — on every input the
public function returns the body's `(success, message)` result when the
body returns, and converts every exception the body raises into a
`(False, wrapped message)` result; nothing propagates. -/
theorem c8_exceptions_caught (einp : EncoderInput) (dinp : DecoderInput)
    (im hm : Bool) :
    ((∃ o, convert_body einp im = .ok o ∧ convert_png_to_bin einp im = o) ∨
     (∃ e, convert_body einp im = .error e ∧
        convert_png_to_bin einp im =
          ⟨false, "Error converting PNG: " ++ e, none⟩)) ∧
    ((∃ o, read_bin_body dinp hm = .ok o ∧ read_bin_to_png dinp hm = o) ∨
     (∃ e, read_bin_body dinp hm = .error e ∧
        read_bin_to_png dinp hm =
          ⟨false, "Error converting BIN to PNG: " ++ e, none⟩)) := by
  constructor
  · cases hc : convert_body einp im with
    | ok o => exact .inl ⟨o, rfl, by simp [convert_png_to_bin, hc]⟩
    | error e => exact .inr ⟨e, rfl, by simp [convert_png_to_bin, hc]⟩
  · cases hr : read_bin_body dinp hm with
    | ok o => exact .inl ⟨o, rfl, by simp [read_bin_to_png, hr]⟩
    | error e => exact .inr ⟨e, rfl, by simp [read_bin_to_png, hr]⟩

/-- C9: encoding the 1×1 image with pixel `(10,20,30,40)` with metadata
produces a container whose bytes 13-16 are `04 00 00 00` and whose bytes
17-20 are `0A 14 1E 28`. -/
theorem c9_concrete_1x1 :
    (((convert_png_to_bin ⟨"px.png", true, ".png",
        some ⟨1, 1, [10, 20, 30, 40]⟩⟩ true).written.getD []).drop 13).take 4
      = [4, 0, 0, 0] ∧
    (((convert_png_to_bin ⟨"px.png", true, ".png",
        some ⟨1, 1, [10, 20, 30, 40]⟩⟩ true).written.getD []).drop 17).take 4
      = [10, 20, 30, 40] := by
  decide

/-- C10: the decoder never consults the source path's suffix — results
agree across any two suffixes — and a well-formed header container decodes
successfully whatever the suffix is. -/
theorem c10_no_extension_check (p sfx sfx2 : String) (w h bpp : Nat)
    (data : List Nat)
    (_hw : 1 ≤ w) (_hh : 1 ≤ h) (hw32 : w < 4294967296) (hh32 : h < 4294967296)
    (hs32 : w * h * 4 < 4294967296) (hlen : data.length = w * h * 4) :
    (∀ (c : List Nat) (e hm : Bool),
       read_bin_to_png ⟨p, e, sfx, c⟩ hm = read_bin_to_png ⟨p, e, sfx2, c⟩ hm) ∧
    (read_bin_to_png ⟨p, true, sfx,
        MAGIC ++ pack_le32 w ++ pack_le32 h ++ [bpp] ++ pack_le32 (w * h * 4)
          ++ data⟩ true).success = true := by
  constructor
  · intro c e hm; rfl
  · rw [read_bin_header p sfx w h bpp (w * h * 4) data hw32 hh32 hs32]
    rw [if_pos (by simp [List.length_take, hlen])]

/-- C10 witness: a container behind a `.weird` path decodes the same as
behind `.txt`, and succeeds, with a bytes-per-pixel byte of 7. -/
theorem c10_no_extension_check_witness :
    (read_bin_to_png ⟨"d.weird", true, ".weird",
        MAGIC ++ pack_le32 1 ++ pack_le32 1 ++ [7] ++ pack_le32 (1 * 1 * 4)
          ++ [10, 20, 30, 40]⟩ true =
      read_bin_to_png ⟨"d.weird", true, ".txt",
        MAGIC ++ pack_le32 1 ++ pack_le32 1 ++ [7] ++ pack_le32 (1 * 1 * 4)
          ++ [10, 20, 30, 40]⟩ true) ∧
    (read_bin_to_png ⟨"d.weird", true, ".weird",
        MAGIC ++ pack_le32 1 ++ pack_le32 1 ++ [7] ++ pack_le32 (1 * 1 * 4)
          ++ [10, 20, 30, 40]⟩ true).success = true := by
  have h := c10_no_extension_check "d.weird" ".weird" ".txt" 1 1 7
    [10, 20, 30, 40] (by decide) (by decide) (by decide) (by decide)
    (by decide) (by decide)
  exact ⟨h.1 (MAGIC ++ pack_le32 1 ++ pack_le32 1 ++ [7] ++ pack_le32 (1 * 1 * 4)
    ++ [10, 20, 30, 40]) true true, h.2⟩
